import Mathlib

/-!
Shallow embedding of the PyRABIT client (src/autorabit.py, v1.2.0).

The module wraps the AutoRABIT CI-jobs HTTP API.  Module-level state
(`_endpoint`, `_token`, `cijobs`) is modelled by `ModuleState`; the HTTP
transport (the `requests` library) is modelled by a function from the
outgoing `Request` to a `TransportResult` (either a raised
`RequestException`, carried as a string, or an `HttpResponse`).  Python
exceptions that can escape an operation are the constructors of `PyExc`;
each operation returns `Except PyExc Json` (the normal return value or
the raised exception) paired with the list of HTTP requests it issued.
-/

/-- JSON values as produced by `response.json()`. -/
inductive Json where
  | null
  | bool (b : Bool)
  | num (n : Int)
  | str (s : String)
  | arr (elems : List Json)
  | obj (fields : List (String × Json))

/-- Python `==` between a JSON value and a string literal: true exactly for
an equal string; values of any other type compare unequal (no error). -/
def Json.eqStr : Json → String → Bool
  | .str s, t => s == t
  | _, _ => false

/-- Whether the JSON value is a string (`isinstance(v, str)`). -/
def Json.isStr : Json → Bool
  | .str _ => true
  | _ => false

/-- An HTTP response as seen through the `requests` response object:
the status code and, when the body is well-formed JSON, its parse. -/
structure HttpResponse where
  statusCode : Nat
  jsonBody : Option Json

/-- The Python object handed to the `RabitStatusError` constructor:
either the raw response object or a parsed JSON value. -/
inductive ErrPayload where
  | response (r : HttpResponse)
  | json (j : Json)

/-- The Python exceptions that can escape the embedded functions. -/
inductive PyExc where
  | rabitError (msg : String)
  | rabitStatusError (payload : ErrPayload)
  | rabitConnectError (msg : String) (cause : String)
  | keyError (key : String)
  | attributeError (attr : String)
  | typeError (msg : String)
  | jsonDecodeError
  | nameError (name : String)

/-- `response.raise_for_status()` raises exactly for status codes 400-599. -/
def HttpResponse.raisesForStatus (r : HttpResponse) : Bool :=
  decide (400 ≤ r.statusCode) && decide (r.statusCode < 600)

/-- `response.json()`: the parsed body, or a JSON decode error. -/
def HttpResponse.json (r : HttpResponse) : Except PyExc Json :=
  match r.jsonBody with
  | some j => Except.ok j
  | none => Except.error PyExc.jsonDecodeError

/-- Python substring test used by `key in someString`. -/
def strContainsSub (s sub : String) : Bool :=
  (List.range (s.data.length + 1)).any fun i => sub.data.isPrefixOf (s.data.drop i)

/-- Python `key in value` for a JSON value: key membership for a dict,
element membership for a list, substring test for a string, `TypeError`
otherwise. -/
def Json.hasMember : Json → String → Except PyExc Bool
  | .obj fields, key => Except.ok (fields.lookup key).isSome
  | .arr elems, key => Except.ok (elems.any fun j => j.eqStr key)
  | .str s, key => Except.ok (strContainsSub s key)
  | _, _ => Except.error (PyExc.typeError "argument is not iterable")

/-- Python `value[key]` for a JSON value: field access for a dict
(`KeyError` when absent), `TypeError` for every other type. -/
def Json.index : Json → String → Except PyExc Json
  | .obj fields, key =>
      match fields.lookup key with
      | some v => Except.ok v
      | none => Except.error (PyExc.keyError key)
  | .arr _, _ => Except.error (PyExc.typeError "list indices must be integers")
  | .str _, _ => Except.error (PyExc.typeError "string indices must be integers")
  | _, _ => Except.error (PyExc.typeError "object is not subscriptable")

/-- Python `value.startswith(pre)`: prefix test for a string,
`AttributeError` for every other type. -/
def Json.pyStartsWith : Json → String → Except PyExc Bool
  | .str s, pre => Except.ok (pre.isPrefixOf s)
  | _, _ => Except.error (PyExc.attributeError "startswith")

/-- Python string slice `s[0:n]`: the first `n` characters
(the whole string when it is shorter). -/
def pyStrSlice (s : String) (n : Nat) : String :=
  String.mk (s.data.take n)

/-- Python `dict.update`: existing keys keep their position and take the
new value; new keys are appended in order. -/
def dictUpdate (base extra : List (String × Json)) : List (String × Json) :=
  (base.map fun p =>
    match extra.lookup p.1 with
    | some v => (p.1, v)
    | none => p)
  ++ extra.filter fun q => (base.lookup q.1).isNone

/-- Python truthiness of an optional integer: `None` and `0` are falsy. -/
def pyTruthyOptInt : Option Int → Bool
  | none => false
  | some n => n != 0

-- constants (module level)
def STATUS_INPROGRESS : String := "Inprogress"
def STATUS_COMPLETE : List String := ["Completed", "Success", "Successful"]
def STATUS_OK : List String := ["Inprogress", "Completed", "Success", "Successful"]

/-- One HTTP request as issued through `requests.get`/`requests.post`. -/
structure Request where
  method : String
  url : String
  headers : List (String × String)
  body : Option Json := none
  params : List (String × Int) := []

/-- Outcome of handing a request to the transport: a raised
`requests.exceptions.RequestException` (described by a string) or a
completed response. -/
inductive TransportResult where
  | exc (e : String)
  | ok (response : HttpResponse)

/-- The handler for the cijobs service: the captured URL prefix and the
fixed header set built by `CIJobService.__init__`. -/
structure CIJobService where
  url : String
  headers : List (String × String)

/-- The module-level globals `_endpoint`, `_token` and `cijobs`
(`none` = not yet assigned). -/
structure ModuleState where
  endpoint : Option String
  token : Option String
  cijobs : Option CIJobService

/-- `CIJobService.__init__`: reads the globals `_endpoint` and `_token`
(a `NameError` if either was never assigned) and captures the request-URL
prefix and headers. -/
def CIJobService.construct (st : ModuleState) : Except PyExc CIJobService :=
  match st.endpoint with
  | none => Except.error (PyExc.nameError "_endpoint")
  | some e =>
    match st.token with
    | none => Except.error (PyExc.nameError "_token")
    | some t =>
      Except.ok
        { url := e ++ "/api/cijobs/v1"
          headers := [("token", t), ("Content-Type", "application/json"),
                      ("Accept", "application/json")] }

/-- `init(endpoint='http://localhost', token=None)`: assigns the global
`_endpoint`, then raises `RabitError` when `token is None`; otherwise
assigns `_token` and rebuilds the global `cijobs` handler.  Returns the
outcome together with the module state after the call. -/
def init (st : ModuleState) (endpoint : String := "http://localhost")
    (token : Option String := none) : Except PyExc Unit × ModuleState :=
  let st := { st with endpoint := some endpoint }
  match token with
  | none => (Except.error (PyExc.rabitError "Please provide a valid AutoRABIT TOKEN"), st)
  | some t =>
    let st := { st with token := some t }
    match CIJobService.construct st with
    | Except.error ex => (Except.error ex, st)
    | Except.ok svc => (Except.ok (), { st with cijobs := some svc })

/-- `CIJobService.trigger(projectName=None, title='automated-build')`:
POST `{url}/trigger` with body `{projectName, title}`; on HTTP success the
body's `status` must be in `STATUS_OK`. -/
def CIJobService.trigger (svc : CIJobService) (transport : Request → TransportResult)
    (projectName : Option String) (title : String := "automated-build") :
    Except PyExc Json × List Request :=
  match projectName with
  | none => (Except.error (PyExc.rabitError "Please provide a valid AutoRABIT Project"), [])
  | some project =>
    let endpoint := svc.url ++ "/trigger"
    let data := Json.obj [("projectName", Json.str project), ("title", Json.str title)]
    let req : Request := { method := "POST", url := endpoint, headers := svc.headers,
                           body := some data }
    let outcome : Except PyExc Json :=
      match transport req with
      | TransportResult.exc e => Except.error (PyExc.rabitConnectError "Cannot trigger job" e)
      | TransportResult.ok response =>
        if response.raisesForStatus then
          Except.error (PyExc.rabitStatusError (ErrPayload.response response))
        else
          match response.json with
          | Except.error ex => Except.error ex
          | Except.ok res_body =>
            match res_body.index "status" with
            | Except.error ex => Except.error ex
            | Except.ok status =>
              if STATUS_OK.any (fun s => status.eqStr s) then Except.ok res_body
              else Except.error (PyExc.rabitStatusError (ErrPayload.json res_body))
    (outcome, [req])

/-- `CIJobService.poll(projectName=None, buildNumber=None)`:
GET `{url}/pollstatus/{project}[/{build}]`; on HTTP success the parsed
body is returned with no status-field check. -/
def CIJobService.poll (svc : CIJobService) (transport : Request → TransportResult)
    (projectName : Option String) (buildNumber : Option Int := none) :
    Except PyExc Json × List Request :=
  match projectName with
  | none => (Except.error (PyExc.rabitError "Please provide a valid AutoRABIT Project"), [])
  | some project =>
    let endpoint := svc.url ++ "/pollstatus/" ++ project
    let endpoint :=
      match buildNumber with
      | some n => endpoint ++ "/" ++ toString n
      | none => endpoint
    let req : Request := { method := "GET", url := endpoint, headers := svc.headers }
    let outcome : Except PyExc Json :=
      match transport req with
      | TransportResult.exc e => Except.error (PyExc.rabitConnectError "Cannot poll job" e)
      | TransportResult.ok response =>
        if response.raisesForStatus then
          Except.error (PyExc.rabitStatusError (ErrPayload.response response))
        else response.json
    (outcome, [req])

/-- `CIJobService.history(projectName=None, build_from=-1, build_to=-1, **kwargs)`:
a `buildNumber` keyword overrides both bounds; GET `{url}/history/{project}?from&to`;
on HTTP success the `ciJobHistoryList` field is unwrapped, its absence is a
`RabitStatusError`. -/
def CIJobService.history (svc : CIJobService) (transport : Request → TransportResult)
    (projectName : Option String) (build_from : Int := -1) (build_to : Int := -1)
    (buildNumber : Option Int := none) : Except PyExc Json × List Request :=
  match projectName with
  | none => (Except.error (PyExc.rabitError "Please provide a valid AutoRABIT Project"), [])
  | some project =>
    let build_from := match buildNumber with | some n => n | none => build_from
    let build_to := match buildNumber with | some n => n | none => build_to
    let endpoint := svc.url ++ "/history/" ++ project
    let parameters := [("from", build_from), ("to", build_to)]
    let req : Request := { method := "GET", url := endpoint, headers := svc.headers,
                           params := parameters }
    let outcome : Except PyExc Json :=
      match transport req with
      | TransportResult.exc e => Except.error (PyExc.rabitConnectError "Cannot obtain history" e)
      | TransportResult.ok response =>
        if response.raisesForStatus then
          Except.error (PyExc.rabitStatusError (ErrPayload.response response))
        else
          match response.json with
          | Except.error ex => Except.error ex
          | Except.ok result =>
            match result.hasMember "ciJobHistoryList" with
            | Except.error ex => Except.error ex
            | Except.ok true =>
              match result.index "ciJobHistoryList" with
              | Except.error ex => Except.error ex
              | Except.ok v => Except.ok v
            | Except.ok false => Except.error (PyExc.rabitStatusError (ErrPayload.json result))
    (outcome, [req])

/-- `CIJobService.update(projectName=None, revision=None)`:
POST `{url}/update/baselinerevision` with `baseLineRevision = revision[0:10]`;
on HTTP success the body's `status` must equal `'Success'` exactly. -/
def CIJobService.update (svc : CIJobService) (transport : Request → TransportResult)
    (projectName : Option String) (revision : Option String) :
    Except PyExc Json × List Request :=
  match projectName with
  | none => (Except.error (PyExc.rabitError "Please provide a valid AutoRABIT Project"), [])
  | some project =>
    match revision with
    | none => (Except.error (PyExc.rabitError "Please provide a valid baseline revision"), [])
    | some revision =>
      let endpoint := svc.url ++ "/update/baselinerevision"
      let data := Json.obj [("projectName", Json.str project),
                            ("baseLineRevision", Json.str (pyStrSlice revision 10))]
      let req : Request := { method := "POST", url := endpoint, headers := svc.headers,
                             body := some data }
      let outcome : Except PyExc Json :=
        match transport req with
        | TransportResult.exc e => Except.error (PyExc.rabitConnectError "Cannot perform update" e)
        | TransportResult.ok response =>
          if response.raisesForStatus then
            Except.error (PyExc.rabitStatusError (ErrPayload.response response))
          else
            match response.json with
            | Except.error ex => Except.error ex
            | Except.ok res_body =>
              match res_body.index "status" with
              | Except.error ex => Except.error ex
              | Except.ok status =>
                if status.eqStr "Success" then response.json
                else Except.error (PyExc.rabitStatusError (ErrPayload.json res_body))
      (outcome, [req])

/-- `CIJobService.quick_deploy(projectName=None, buildNumber=None)`:
POST `{url}/triggerquickdeploy/{project}[/{build}]` with no body; on HTTP
success the body's `status` must start with
`'Quick deploy initiated successfully'`. -/
def CIJobService.quick_deploy (svc : CIJobService) (transport : Request → TransportResult)
    (projectName : Option String) (buildNumber : Option Int := none) :
    Except PyExc Json × List Request :=
  match projectName with
  | none => (Except.error (PyExc.rabitError "Please provide a valid AutoRABIT Project"), [])
  | some project =>
    let endpoint := svc.url ++ "/triggerquickdeploy/" ++ project
    let endpoint :=
      match buildNumber with
      | some n => endpoint ++ "/" ++ toString n
      | none => endpoint
    let req : Request := { method := "POST", url := endpoint, headers := svc.headers }
    let outcome : Except PyExc Json :=
      match transport req with
      | TransportResult.exc e => Except.error (PyExc.rabitConnectError "Cannot trigger job" e)
      | TransportResult.ok response =>
        if response.raisesForStatus then
          Except.error (PyExc.rabitStatusError (ErrPayload.response response))
        else
          match response.json with
          | Except.error ex => Except.error ex
          | Except.ok res_body =>
            match res_body.index "status" with
            | Except.error ex => Except.error ex
            | Except.ok status =>
              match status.pyStartsWith "Quick deploy initiated successfully" with
              | Except.error ex => Except.error ex
              | Except.ok true => Except.ok res_body
              | Except.ok false => Except.error (PyExc.rabitStatusError (ErrPayload.json status))
    (outcome, [req])

/-- `CIJobService.rollback(projectName=None, buildNumber=None, **kwargs)`:
POST `{url}/rollback`; `cyclenum` is added only when `buildNumber` is
truthy (so `0` behaves like omitted), then the keyword bag is merged into
the body; on HTTP success the parsed body is returned unchecked. -/
def CIJobService.rollback (svc : CIJobService) (transport : Request → TransportResult)
    (projectName : Option String) (buildNumber : Option Int := none)
    (kwargs : List (String × Json) := []) : Except PyExc Json × List Request :=
  match projectName with
  | none => (Except.error (PyExc.rabitError "Please provide a valid AutoRABIT Project"), [])
  | some project =>
    let endpoint := svc.url ++ "/rollback"
    let data : List (String × Json) := [("projectName", Json.str project)]
    let data :=
      if pyTruthyOptInt buildNumber then
        match buildNumber with
        | some n => dictUpdate data [("cyclenum", Json.num n)]
        | none => data
      else data
    let data := dictUpdate data kwargs
    let req : Request := { method := "POST", url := endpoint, headers := svc.headers,
                           body := some (Json.obj data) }
    let outcome : Except PyExc Json :=
      match transport req with
      | TransportResult.exc e => Except.error (PyExc.rabitConnectError "Cannot trigger rollback" e)
      | TransportResult.ok response =>
        if response.raisesForStatus then
          Except.error (PyExc.rabitStatusError (ErrPayload.response response))
        else response.json
    (outcome, [req])

/-- `CIJobService.rollback_details(projectName=None, buildNumber=None)`:
GET `{url}/rollback/{project}[/{build}]`; the build segment is appended
only when `buildNumber` is truthy (so `0` behaves like omitted); on HTTP
success the parsed body is returned unchecked. -/
def CIJobService.rollback_details (svc : CIJobService) (transport : Request → TransportResult)
    (projectName : Option String) (buildNumber : Option Int := none) :
    Except PyExc Json × List Request :=
  match projectName with
  | none => (Except.error (PyExc.rabitError "Please provide a valid AutoRABIT Project"), [])
  | some project =>
    let endpoint := svc.url ++ "/rollback/" ++ project
    let endpoint :=
      if pyTruthyOptInt buildNumber then
        match buildNumber with
        | some n => endpoint ++ "/" ++ toString n
        | none => endpoint
      else endpoint
    let req : Request := { method := "GET", url := endpoint, headers := svc.headers }
    let outcome : Except PyExc Json :=
      match transport req with
      | TransportResult.exc e =>
          Except.error (PyExc.rabitConnectError "Cannot obtain rollback details" e)
      | TransportResult.ok response =>
        if response.raisesForStatus then
          Except.error (PyExc.rabitStatusError (ErrPayload.response response))
        else response.json
    (outcome, [req])

/-- `CIJobService.rollback_history(projectName=None, buildNumber=None)`:
GET `{url}/rollback/history/{project}[/{build}]`; the build segment is
appended only when `buildNumber` is truthy; on HTTP success the
`revertDeployments` field is unwrapped, its absence is a
`RabitStatusError`. -/
def CIJobService.rollback_history (svc : CIJobService) (transport : Request → TransportResult)
    (projectName : Option String) (buildNumber : Option Int := none) :
    Except PyExc Json × List Request :=
  match projectName with
  | none => (Except.error (PyExc.rabitError "Please provide a valid AutoRABIT Project"), [])
  | some project =>
    let endpoint := svc.url ++ "/rollback/history/" ++ project
    let endpoint :=
      if pyTruthyOptInt buildNumber then
        match buildNumber with
        | some n => endpoint ++ "/" ++ toString n
        | none => endpoint
      else endpoint
    let req : Request := { method := "GET", url := endpoint, headers := svc.headers }
    let outcome : Except PyExc Json :=
      match transport req with
      | TransportResult.exc e =>
          Except.error (PyExc.rabitConnectError "Cannot obtain rollback history" e)
      | TransportResult.ok response =>
        if response.raisesForStatus then
          Except.error (PyExc.rabitStatusError (ErrPayload.response response))
        else
          match response.json with
          | Except.error ex => Except.error ex
          | Except.ok result =>
            match result.hasMember "revertDeployments" with
            | Except.error ex => Except.error ex
            | Except.ok true =>
              match result.index "revertDeployments" with
              | Except.error ex => Except.error ex
              | Except.ok v => Except.ok v
            | Except.ok false => Except.error (PyExc.rabitStatusError (ErrPayload.json result))
    (outcome, [req])

-- Helper lemmas and concrete fixtures shared by the development

/-- `Json.eqStr` holds exactly for the equal string value. -/
theorem Json.eqStr_iff (v : Json) (t : String) : v.eqStr t = true ↔ v = Json.str t := by
  cases v <;> simp [Json.eqStr]

/-- A concrete service handler, as built from a concrete session. -/
def svcEx : CIJobService :=
  { url := "https://rabit.example/api/cijobs/v1"
    headers := [("token", "secret"), ("Content-Type", "application/json"),
                ("Accept", "application/json")] }

/-- C1: with a transport that raises a `RequestException` (any message
`e`), every one of the eight operations — invoked with its required
parameters present — raises `RabitConnectError` carrying the underlying
transport error `e`; the raw transport exception is never the outcome. -/
theorem C1_transport_failure_wrapped
    (svc : CIJobService) (e p title rev : String) (bn obn : Option Int)
    (bf bt : Int) (kw : List (String × Json)) :
    (svc.trigger (fun _ => TransportResult.exc e) (some p) title).1
      = Except.error (PyExc.rabitConnectError "Cannot trigger job" e)
  ∧ (svc.poll (fun _ => TransportResult.exc e) (some p) bn).1
      = Except.error (PyExc.rabitConnectError "Cannot poll job" e)
  ∧ (svc.history (fun _ => TransportResult.exc e) (some p) bf bt obn).1
      = Except.error (PyExc.rabitConnectError "Cannot obtain history" e)
  ∧ (svc.update (fun _ => TransportResult.exc e) (some p) (some rev)).1
      = Except.error (PyExc.rabitConnectError "Cannot perform update" e)
  ∧ (svc.quick_deploy (fun _ => TransportResult.exc e) (some p) bn).1
      = Except.error (PyExc.rabitConnectError "Cannot trigger job" e)
  ∧ (svc.rollback (fun _ => TransportResult.exc e) (some p) bn kw).1
      = Except.error (PyExc.rabitConnectError "Cannot trigger rollback" e)
  ∧ (svc.rollback_details (fun _ => TransportResult.exc e) (some p) bn).1
      = Except.error (PyExc.rabitConnectError "Cannot obtain rollback details" e)
  ∧ (svc.rollback_history (fun _ => TransportResult.exc e) (some p) bn).1
      = Except.error (PyExc.rabitConnectError "Cannot obtain rollback history" e) :=
  ⟨rfl, rfl, rfl, rfl, rfl, rfl, rfl, rfl⟩

/-- C3 counterexample: the claim says an *empty* token also fails, but
`init` only tests `token is None` — re-initializing with `token = ""`
succeeds (no `ConfigurationError` is raised). -/
theorem C3_counterexample :
    (init { endpoint := none, token := none, cijobs := none }
      "http://localhost" (some "")).1 = Except.ok () := rfl

/-- C3 amended: for every endpoint value and prior module state, `init`
without a token (`token = None`) raises `RabitError`; `init` takes no
transport, so the failure involves no network activity.  (An empty-string
token, however, is accepted.) -/
theorem C3_init_missing_token_fails (endpoint : String) (st : ModuleState) :
    (init st endpoint none).1
      = Except.error (PyExc.rabitError "Please provide a valid AutoRABIT TOKEN") := rfl

/-- C4: each operation invoked without its required identifying
parameters (`projectName` for all eight; additionally `revision` for
`update`) raises `RabitError` and issues zero transport invocations
(empty request trace), for every transport. -/
theorem C4_missing_params_no_request
    (svc : CIJobService) (t : Request → TransportResult) (title p : String)
    (bn obn : Option Int) (bf bt : Int) (kw : List (String × Json)) :
    svc.trigger t none title
      = (Except.error (PyExc.rabitError "Please provide a valid AutoRABIT Project"), [])
  ∧ svc.poll t none bn
      = (Except.error (PyExc.rabitError "Please provide a valid AutoRABIT Project"), [])
  ∧ svc.history t none bf bt obn
      = (Except.error (PyExc.rabitError "Please provide a valid AutoRABIT Project"), [])
  ∧ svc.update t none none
      = (Except.error (PyExc.rabitError "Please provide a valid AutoRABIT Project"), [])
  ∧ svc.update t (some p) none
      = (Except.error (PyExc.rabitError "Please provide a valid baseline revision"), [])
  ∧ svc.quick_deploy t none bn
      = (Except.error (PyExc.rabitError "Please provide a valid AutoRABIT Project"), [])
  ∧ svc.rollback t none bn kw
      = (Except.error (PyExc.rabitError "Please provide a valid AutoRABIT Project"), [])
  ∧ svc.rollback_details t none bn
      = (Except.error (PyExc.rabitError "Please provide a valid AutoRABIT Project"), [])
  ∧ svc.rollback_history t none bn
      = (Except.error (PyExc.rabitError "Please provide a valid AutoRABIT Project"), []) :=
  ⟨rfl, rfl, rfl, rfl, rfl, rfl, rfl, rfl, rfl⟩

/-- C9: `init` without a token is not atomic — it has already overwritten
the global `_endpoint` with the new value when it raises, while `_token`
and the `cijobs` handler keep their previous values. -/
theorem C9_init_partial_mutation_on_error (endpoint : String) (st : ModuleState) :
    (init st endpoint none).2.endpoint = some endpoint
  ∧ (init st endpoint none).2.token = st.token
  ∧ (init st endpoint none).2.cijobs = st.cijobs
  ∧ (init st endpoint none).1
      = Except.error (PyExc.rabitError "Please provide a valid AutoRABIT TOKEN") :=
  ⟨rfl, rfl, rfl, rfl⟩

/-- C2: on any HTTP-success response (`raise_for_status` does not raise),
`poll` returns the full parsed JSON body whatever its `status` field
holds, and never raises `RabitStatusError`. -/
theorem C2_poll_returns_body_on_http_success
    (svc : CIJobService) (p : String) (bn : Option Int) (resp : HttpResponse)
    (hok : resp.raisesForStatus = false) :
    (∀ j, resp.jsonBody = some j →
        (svc.poll (fun _ => TransportResult.ok resp) (some p) bn).1 = Except.ok j)
  ∧ ∀ pl, (svc.poll (fun _ => TransportResult.ok resp) (some p) bn).1
        ≠ Except.error (PyExc.rabitStatusError pl) := by
  constructor
  · intro j hj
    simp [CIJobService.poll, hok, HttpResponse.json, hj]
  · intro pl
    cases hj : resp.jsonBody <;>
      simp [CIJobService.poll, hok, HttpResponse.json, hj]

/-- C2 witness: a 200 response whose body has `status = "Inprogress"` is
returned whole by `poll`. -/
theorem C2_witness :
    (svcEx.poll
      (fun _ => TransportResult.ok
        { statusCode := 200, jsonBody := some (Json.obj [("status", Json.str "Inprogress")]) })
      (some "job") none).1
      = Except.ok (Json.obj [("status", Json.str "Inprogress")]) :=
  (C2_poll_returns_body_on_http_success svcEx "job" none
    { statusCode := 200, jsonBody := some (Json.obj [("status", Json.str "Inprogress")]) }
    rfl).1 _ rfl

/-- C10: `buildNumber = 0` is appended to the URL path by `poll` and
`quick_deploy` (any non-`None` value is formatted in), while the rollback
family tests truthiness, so for `rollback`, `rollback_details` and
`rollback_history` the request issued with `buildNumber = 0` is
identical to the one issued with `buildNumber` omitted. -/
theorem C10_buildNumber_zero_inconsistency
    (svc : CIJobService) (t : Request → TransportResult) (p : String)
    (kw : List (String × Json)) :
    (svc.poll t (some p) (some 0)).2
      = [{ method := "GET", url := svc.url ++ "/pollstatus/" ++ p ++ "/" ++ "0",
           headers := svc.headers }]
  ∧ (svc.quick_deploy t (some p) (some 0)).2
      = [{ method := "POST", url := svc.url ++ "/triggerquickdeploy/" ++ p ++ "/" ++ "0",
           headers := svc.headers }]
  ∧ (svc.rollback t (some p) (some 0) kw).2 = (svc.rollback t (some p) none kw).2
  ∧ (svc.rollback_details t (some p) (some 0)).2 = (svc.rollback_details t (some p) none).2
  ∧ (svc.rollback_history t (some p) (some 0)).2 = (svc.rollback_history t (some p) none).2 :=
  ⟨rfl, rfl, rfl, rfl, rfl⟩

/-- C5: on an HTTP-success response with an object body, `history`
returns exactly the `ciJobHistoryList` field's value when present and
raises `RabitStatusError` (carrying the body) when absent; likewise
`rollback_history` for `revertDeployments`. -/
theorem C5_unwrap_named_field
    (svc : CIJobService) (p : String) (bf bt : Int) (obn bn : Option Int)
    (resp : HttpResponse) (fs : List (String × Json))
    (hok : resp.raisesForStatus = false)
    (hbody : resp.jsonBody = some (Json.obj fs)) :
    (∀ v, fs.lookup "ciJobHistoryList" = some v →
       (svc.history (fun _ => TransportResult.ok resp) (some p) bf bt obn).1 = Except.ok v)
  ∧ (fs.lookup "ciJobHistoryList" = none →
       (svc.history (fun _ => TransportResult.ok resp) (some p) bf bt obn).1
         = Except.error (PyExc.rabitStatusError (ErrPayload.json (Json.obj fs))))
  ∧ (∀ v, fs.lookup "revertDeployments" = some v →
       (svc.rollback_history (fun _ => TransportResult.ok resp) (some p) bn).1 = Except.ok v)
  ∧ (fs.lookup "revertDeployments" = none →
       (svc.rollback_history (fun _ => TransportResult.ok resp) (some p) bn).1
         = Except.error (PyExc.rabitStatusError (ErrPayload.json (Json.obj fs)))) := by
  refine ⟨?_, ?_, ?_, ?_⟩
  · intro v h
    simp [CIJobService.history, hok, hbody, HttpResponse.json, Json.hasMember, Json.index, h]
  · intro h
    simp [CIJobService.history, hok, hbody, HttpResponse.json, Json.hasMember, Json.index, h]
  · intro v h
    simp [CIJobService.rollback_history, hok, hbody, HttpResponse.json, Json.hasMember,
      Json.index, h]
  · intro h
    simp [CIJobService.rollback_history, hok, hbody, HttpResponse.json, Json.hasMember,
      Json.index, h]

/-- C5 witness: a 200 response whose body holds `ciJobHistoryList` is
unwrapped by `history` to that field's value; the same body, lacking
`revertDeployments`, makes `rollback_history` raise `RabitStatusError`. -/
theorem C5_witness :
    (svcEx.history (fun _ => TransportResult.ok
        { statusCode := 200, jsonBody := some (Json.obj [("ciJobHistoryList", Json.arr [])]) })
      (some "job") (-1) (-1) none).1 = Except.ok (Json.arr [])
  ∧ (svcEx.rollback_history (fun _ => TransportResult.ok
        { statusCode := 200, jsonBody := some (Json.obj [("ciJobHistoryList", Json.arr [])]) })
      (some "job") none).1
      = Except.error (PyExc.rabitStatusError
          (ErrPayload.json (Json.obj [("ciJobHistoryList", Json.arr [])]))) := by
  have h := C5_unwrap_named_field svcEx "job" (-1) (-1) none none
    { statusCode := 200, jsonBody := some (Json.obj [("ciJobHistoryList", Json.arr [])]) }
    [("ciJobHistoryList", Json.arr [])] rfl rfl
  exact ⟨h.1 _ rfl, h.2.2.2 rfl⟩

/-- C6: the request `update` issues carries
`baseLineRevision = revision[0:10]`: its characters are exactly the first
ten of the revision, a revision longer than 10 characters is cut to
length 10, and one of at most 10 characters passes through unchanged. -/
theorem C6_update_truncates_revision
    (svc : CIJobService) (t : Request → TransportResult) (p rev : String) :
    (svc.update t (some p) (some rev)).2
      = [{ method := "POST", url := svc.url ++ "/update/baselinerevision",
           headers := svc.headers,
           body := some (Json.obj [("projectName", Json.str p),
                                   ("baseLineRevision", Json.str (pyStrSlice rev 10))]) }]
  ∧ (pyStrSlice rev 10).data = rev.data.take 10
  ∧ (10 < rev.length → (pyStrSlice rev 10).length = 10)
  ∧ (rev.length ≤ 10 → pyStrSlice rev 10 = rev) := by
  refine ⟨rfl, rfl, ?_, ?_⟩
  · intro h
    have h' : 10 < rev.data.length := h
    show (rev.data.take 10).length = 10
    rw [List.length_take]
    omega
  · intro h
    have h' : rev.data.length ≤ 10 := h
    show String.mk (rev.data.take 10) = rev
    rw [List.take_of_length_le h']

/-- C6 witness: a 12-character revision is cut to 10 characters; a
7-character revision is unchanged. -/
theorem C6_witness :
    (pyStrSlice "abcdefghijkl" 10).length = 10 ∧ pyStrSlice "abcdefg" 10 = "abcdefg" :=
  ⟨(C6_update_truncates_revision svcEx (fun _ => TransportResult.exc "down") "p"
      "abcdefghijkl").2.2.1 (by decide),
   (C6_update_truncates_revision svcEx (fun _ => TransportResult.exc "down") "p"
      "abcdefg").2.2.2 (by decide)⟩

/-- C7: on an HTTP-success response whose object body carries a `status`
field, `update` returns the full body exactly when that field equals the
string `"Success"`, and otherwise raises `RabitStatusError` on the body —
the already-the-baseline case is never detected separately. -/
theorem C7_update_success_iff_status_Success
    (svc : CIJobService) (p rev : String) (resp : HttpResponse)
    (fs : List (String × Json)) (v : Json)
    (hok : resp.raisesForStatus = false)
    (hbody : resp.jsonBody = some (Json.obj fs))
    (hstatus : fs.lookup "status" = some v) :
    ((svc.update (fun _ => TransportResult.ok resp) (some p) (some rev)).1
        = Except.ok (Json.obj fs) ↔ v = Json.str "Success")
  ∧ (v ≠ Json.str "Success" →
       (svc.update (fun _ => TransportResult.ok resp) (some p) (some rev)).1
         = Except.error (PyExc.rabitStatusError (ErrPayload.json (Json.obj fs)))) := by
  have hcore : (svc.update (fun _ => TransportResult.ok resp) (some p) (some rev)).1
      = if v.eqStr "Success" then Except.ok (Json.obj fs)
        else Except.error (PyExc.rabitStatusError (ErrPayload.json (Json.obj fs))) := by
    simp [CIJobService.update, hok, hbody, HttpResponse.json, Json.index, hstatus]
  cases hveq : v.eqStr "Success" with
  | true =>
    have hv : v = Json.str "Success" := (Json.eqStr_iff v "Success").mp hveq
    rw [hcore, hveq]
    simp [hv]
  | false =>
    have hv : v ≠ Json.str "Success" := by
      intro hc
      rw [hc] at hveq
      simp [Json.eqStr] at hveq
    rw [hcore, hveq]
    simp [hv]

/-- C7 witness: a body with `status = "Success"` is returned whole; a
body with `status = "Failed"` raises `RabitStatusError`. -/
theorem C7_witness :
    (svcEx.update (fun _ => TransportResult.ok
        { statusCode := 200, jsonBody := some (Json.obj [("status", Json.str "Success")]) })
      (some "job") (some "rev")).1
      = Except.ok (Json.obj [("status", Json.str "Success")])
  ∧ (svcEx.update (fun _ => TransportResult.ok
        { statusCode := 200, jsonBody := some (Json.obj [("status", Json.str "Failed")]) })
      (some "job") (some "rev")).1
      = Except.error (PyExc.rabitStatusError
          (ErrPayload.json (Json.obj [("status", Json.str "Failed")]))) := by
  constructor
  · exact ((C7_update_success_iff_status_Success svcEx "job" "rev"
      { statusCode := 200, jsonBody := some (Json.obj [("status", Json.str "Success")]) }
      [("status", Json.str "Success")] (Json.str "Success") rfl rfl rfl).1).mpr rfl
  · exact (C7_update_success_iff_status_Success svcEx "job" "rev"
      { statusCode := 200, jsonBody := some (Json.obj [("status", Json.str "Failed")]) }
      [("status", Json.str "Failed")] (Json.str "Failed") rfl rfl rfl).2 (by simp)

/-- C8: on an HTTP-success response whose object body lacks a `status`
field, `trigger`, `update` and `quick_deploy` raise a raw `KeyError`
(not a `RabitError`); when `quick_deploy` finds a non-string `status`,
it raises a raw `AttributeError`. -/
theorem C8_nontotal_error_classification
    (svc : CIJobService) (p rev title : String) (bn : Option Int)
    (resp resp2 : HttpResponse) (fs gs : List (String × Json)) (v : Json)
    (hok : resp.raisesForStatus = false)
    (hbody : resp.jsonBody = some (Json.obj fs))
    (hmiss : fs.lookup "status" = none)
    (hok2 : resp2.raisesForStatus = false)
    (hbody2 : resp2.jsonBody = some (Json.obj gs))
    (hst : gs.lookup "status" = some v)
    (hnotstr : v.isStr = false) :
    (svc.trigger (fun _ => TransportResult.ok resp) (some p) title).1
        = Except.error (PyExc.keyError "status")
  ∧ (svc.update (fun _ => TransportResult.ok resp) (some p) (some rev)).1
        = Except.error (PyExc.keyError "status")
  ∧ (svc.quick_deploy (fun _ => TransportResult.ok resp) (some p) bn).1
        = Except.error (PyExc.keyError "status")
  ∧ (svc.quick_deploy (fun _ => TransportResult.ok resp2) (some p) bn).1
        = Except.error (PyExc.attributeError "startswith") := by
  refine ⟨?_, ?_, ?_, ?_⟩
  · simp [CIJobService.trigger, hok, hbody, HttpResponse.json, Json.index, hmiss]
  · simp [CIJobService.update, hok, hbody, HttpResponse.json, Json.index, hmiss]
  · simp [CIJobService.quick_deploy, hok, hbody, HttpResponse.json, Json.index, hmiss]
  · cases v
    case str s => simp [Json.isStr] at hnotstr
    all_goals
      simp [CIJobService.quick_deploy, hok2, hbody2, HttpResponse.json, Json.index, hst,
        Json.pyStartsWith]

/-- C8 witness: a 200 body without `status` makes `trigger` raise
`KeyError`; a 200 body with a numeric `status` makes `quick_deploy`
raise `AttributeError`. -/
theorem C8_witness :
    (svcEx.trigger (fun _ => TransportResult.ok
        { statusCode := 200, jsonBody := some (Json.obj [("cyclenum", Json.num 7)]) })
      (some "job") "automated-build").1 = Except.error (PyExc.keyError "status")
  ∧ (svcEx.quick_deploy (fun _ => TransportResult.ok
        { statusCode := 200, jsonBody := some (Json.obj [("status", Json.num 5)]) })
      (some "job") none).1 = Except.error (PyExc.attributeError "startswith") := by
  have h := C8_nontotal_error_classification svcEx "job" "rev" "automated-build" none
    { statusCode := 200, jsonBody := some (Json.obj [("cyclenum", Json.num 7)]) }
    { statusCode := 200, jsonBody := some (Json.obj [("status", Json.num 5)]) }
    [("cyclenum", Json.num 7)] [("status", Json.num 5)] (Json.num 5)
    rfl rfl rfl rfl rfl rfl rfl
  exact ⟨h.1, h.2.2.2⟩
